import Mathlib

/-!
Shallow embedding of the realtime voice-bridge core of this repository:
the function dispatch table (src/services/functionHandlers.js), the
realtime session bridge (src/services/realtimeHandler.js) and the
conversation registry (src/services/conversationManager.js).

External collaborators (the data store, the two WebSocket peers, the
telephony control API and JSON parsing) are modelled as oracle inputs:
each awaited external call is an `Except Unit` value whose `error`
case stands for the call throwing, and socket sends are collected as
output event lists instead of performing I/O.
-/

namespace VoiceBot

/-- JavaScript truthiness of an optional string field: `undefined`,
`null` and the empty string are falsy. -/
def jsTruthyStr : Option String → Bool
  | none => false
  | some s => s ≠ ""

/-- `String.prototype.includes`: contiguous substring containment. -/
def jsIncludes (s sub : String) : Bool :=
  decide (sub.data <:+: s.data)

/-- `String.prototype.toLowerCase`, as character-wise lowering of the
underlying character sequence. -/
def jsToLower (s : String) : String :=
  ⟨s.data.map Char.toLower⟩

/-- `Array.prototype.join(sep)` over already-formatted strings. -/
def joinSep (sep : String) : List String → String
  | [] => ""
  | [x] => x
  | x :: y :: xs => x ++ sep ++ joinSep sep (y :: xs)

-- ============================================
-- Data rows returned by the external data store (src/services/database.js
-- result shapes, as consumed by the handlers).
-- ============================================

/-- A doctor row as formatted by `searchDoctors` (joined relation fields
are optional). -/
structure Doctor where
  name : String
  specialization : String
  departmentName : Option String
  locationBranch : Option String
  consultationFee : Option Nat
  deriving DecidableEq

/-- A department row as formatted by `getDepartmentsList`. -/
structure Department where
  name : String
  floorNumber : Option Nat
  services : Option (List String)
  deriving DecidableEq

/-- Opening-hours object on a location row. -/
structure Timings where
  opd : Option String
  emergency : Option String
  deriving DecidableEq

/-- A hospital-location row as formatted by `getHospitalLocationsList`. -/
structure HospitalLocation where
  name : String
  branch : String
  address : String
  city : String
  phoneNumber : String
  timings : Option Timings
  deriving DecidableEq

/-- A contact-directory row as formatted by `getContactInfo` and consumed
by `getDepartmentContactNumber`. -/
structure Contact where
  category : String
  departmentName : Option String
  phoneNumber : String
  extension : Option String
  availableHours : Option String
  deriving DecidableEq

/-- A doctor-availability row as formatted by `checkDoctorAvailability`. -/
structure AvailabilitySlot where
  dayOfWeek : Nat
  startTime : String
  endTime : String
  locationBranch : Option String
  deriving DecidableEq

/-- A hospital-information row used by `searchHospitalInformation`. -/
structure InfoItem where
  title : String
  content : String
  deriving DecidableEq

/-- Result of `db.searchHospitalData(query)`. -/
structure SearchResults where
  doctors : List Doctor
  departments : List Department
  deriving DecidableEq

/-- Shape of the `EMERGENCY_CONTACTS` object exported by the config
module (bundled in src/server.js): one hospital number per key. The
handlers take the table as a parameter, mirroring their import of the
config module; the embedded constant below is the configured table. -/
structure EmergencyContacts where
  main : String
  cardiac : String
  trauma : String
  ambulance : String
  deriving DecidableEq

/-- The configured `EMERGENCY_CONTACTS` table from the config module
in src/server.js (main, ambulance, trauma, cardiac numbers). -/
def EMERGENCY_CONTACTS : EmergencyContacts :=
  { main := "+91-22-2640-0000",
    cardiac := "+91-22-2640-3333",
    trauma := "+91-22-2640-2222",
    ambulance := "+91-22-2640-1111" }

-- ============================================
-- Function dispatch (src/services/functionHandlers.js)
-- ============================================

/-- The normalized result object returned by every function handler.
The raw data-payload fields (`doctors`, `departments`, `locations`,
`contacts`, `availability`, `info`, …) carried alongside are the db
rows themselves and are omitted here; the scalar fields the bridge and
the spec inspect are kept. An `Option` field set to `none` models the
field being absent/`undefined` on the JS object. -/
structure FnResult where
  success : Bool
  message : String
  count : Option Nat := none
  emergency : Option Bool := none
  emergencyType : Option String := none
  contactNumber : Option String := none
  action : Option String := none
  transferTo : Option String := none
  department : Option String := none
  reason : Option String := none
  deriving DecidableEq

/-- The loosely-typed argument object handed to a handler; every field
is optional because the model may supply any subset. A handler that
destructures a `null`/`undefined` argument object throws, which its
`catch` branch absorbs; callers therefore pass `Option FnArgs` where
`none` is the `null` object. -/
structure FnArgs where
  specialization : Option String := none
  doctorName : Option String := none
  locationBranch : Option String := none
  locationId : Option String := none
  branch : Option String := none
  category : Option String := none
  doctorId : Option String := none
  dayOfWeek : Option Nat := none
  emergencyType : Option String := none
  callerPhone : Option String := none
  reason : Option String := none
  department : Option String := none
  query : Option String := none
  deriving DecidableEq

/-- The empty argument object (`JSON.parse` of two braces). -/
def emptyArgs : FnArgs := {}

/-- Per-call outcomes of the awaited data-store reads a dispatch may
perform; `Except.error` models the awaited call throwing past the db
layer (data source unreachable). -/
structure DbEnv where
  locationByBranch : Except Unit (Option HospitalLocation)
  doctors : Except Unit (List Doctor)
  departments : Except Unit (List Department)
  locations : Except Unit (List HospitalLocation)
  contacts : Except Unit (List Contact)
  availability : Except Unit (List AvailabilitySlot)
  searchResults : Except Unit SearchResults
  hospitalInfo : Except Unit (List InfoItem)

/-- Formatting of one doctor row inside `searchDoctors`
(template: name, specialization, optional department, optional branch,
consultation fee with the JS falsy-`0` fallback). -/
def formatDoctor (doc : Doctor) : String :=
  let locationInfo := match doc.locationBranch with
    | some b => " at " ++ b
    | none => ""
  let deptInfo := match doc.departmentName with
    | some d => " in " ++ d
    | none => ""
  let fee := match doc.consultationFee with
    | some n => if n = 0 then "Not specified" else toString n
    | none => "Not specified"
  "Dr. " ++ doc.name ++ ", " ++ doc.specialization ++ deptInfo ++ locationInfo
    ++ ". Consultation fee: ₹" ++ fee

/-- `searchDoctors(args)`: optional location lookup, doctor query,
empty-result message or formatted list; any thrown error lands in the
catch branch with the apology message. -/
def searchDoctors (env : DbEnv) (args : Option FnArgs) : FnResult :=
  let catchResult : FnResult :=
    { success := false,
      message := "I\x27m having trouble accessing doctor information right now. Let me connect you to our appointments desk." }
  match args with
  | none => catchResult
  | some a =>
    let locStep : Except Unit (Option HospitalLocation) :=
      if jsTruthyStr a.locationBranch then env.locationByBranch else .ok none
    match locStep, env.doctors with
    | .error _, _ => catchResult
    | .ok _, .error _ => catchResult
    | .ok _, .ok doctors =>
      if doctors.length = 0 then
        { success := false,
          message := "No doctors found matching your criteria. Would you like me to check our general physician availability?" }
      else
        { success := true,
          count := some doctors.length,
          message := "I found " ++ toString doctors.length ++ " doctor(s):\n"
            ++ joinSep "\n" (doctors.map formatDoctor) }

/-- Formatting of one department row inside `getDepartmentsList`. -/
def formatDepartment (dept : Department) : String :=
  let services := match dept.services with
    | some ss => " Services: " ++ joinSep ", " ss
    | none => ""
  let floor := match dept.floorNumber with
    | some n => if n = 0 then "" else " (Floor " ++ toString n ++ ")"
    | none => ""
  dept.name ++ floor ++ "." ++ services

/-- `getDepartmentsList(args)` (`args || empty` makes destructuring
null-safe, so only the db read can throw). -/
def getDepartmentsList (env : DbEnv) (_args : Option FnArgs) : FnResult :=
  match env.departments with
  | .error _ =>
    { success := false,
      message := "I\x27m having trouble accessing department information. Let me transfer you to our main desk." }
  | .ok departments =>
    if departments.length = 0 then
      { success := false,
        message := "I couldn\x27t retrieve department information at the moment." }
    else
      { success := true,
        count := some departments.length,
        message := "We have " ++ toString departments.length ++ " departments:\n"
          ++ joinSep "\n" (departments.map formatDepartment) }

/-- Formatting of one location row inside `getHospitalLocationsList`. -/
def formatLocation (loc : HospitalLocation) : String :=
  let timings := match loc.timings with
    | some t =>
      let opd := match t.opd with
        | some s => if s = "" then "9 AM - 5 PM" else s
        | none => "9 AM - 5 PM"
      let em := match t.emergency with
        | some s => if s = "" then "24/7" else s
        | none => "24/7"
      "\nOPD: " ++ opd ++ ", Emergency: " ++ em
    | none => ""
  loc.name ++ " - " ++ loc.branch ++ "\nAddress: " ++ loc.address ++ ", "
    ++ loc.city ++ "\nPhone: " ++ loc.phoneNumber ++ timings

/-- `getHospitalLocationsList(args)`: branch-specific lookup or full
list; the success message is the joined location list itself. -/
def getHospitalLocationsList (env : DbEnv) (args : Option FnArgs) : FnResult :=
  let branch := match args with
    | none => none
    | some a => a.branch
  let fetched : Except Unit (List HospitalLocation) :=
    if jsTruthyStr branch then
      match env.locationByBranch with
      | .error e => .error e
      | .ok (some loc) => .ok [loc]
      | .ok none => .ok []
    else env.locations
  match fetched with
  | .error _ =>
    { success := false,
      message := "Our main hospital is at Bandra West, Mumbai. For exact address, let me transfer you to our front desk." }
  | .ok locations =>
    if locations.length = 0 then
      { success := false,
        message := "I couldn\x27t find that location. Our main hospital is in Bandra West, Mumbai." }
    else
      { success := true,
        count := some locations.length,
        message := joinSep "\n\n" (locations.map formatLocation) }

/-- Formatting of one contact row inside `getContactInfo`. -/
def formatContact (contact : Contact) : String :=
  let dept := match contact.departmentName with
    | some d => d ++ " - "
    | none => ""
  let ext := if jsTruthyStr contact.extension
    then " (Ext: " ++ contact.extension.getD "" ++ ")" else ""
  let hours := if jsTruthyStr contact.availableHours
    then "\nAvailable: " ++ contact.availableHours.getD "" else ""
  dept ++ contact.category ++ "\nPhone: " ++ contact.phoneNumber ++ ext ++ hours

/-- `getContactInfo(args)` (null-safe destructuring; the success
message is the joined contact list itself). -/
def getContactInfo (env : DbEnv) (_args : Option FnArgs) : FnResult :=
  match env.contacts with
  | .error _ =>
    { success := false,
      message := "For all inquiries, you can reach our main desk at +91-22-2640-0000." }
  | .ok contacts =>
    if contacts.length = 0 then
      { success := false,
        message := "Let me transfer you to our main reception who can provide the contact details you need." }
    else
      { success := true,
        count := some contacts.length,
        message := joinSep "\n\n" (contacts.map formatContact) }

/-- The weekday-name array of `checkDoctorAvailability`; an
out-of-range index renders the JS `undefined` interpolation. -/
def dayName (i : Nat) : String :=
  (["Sunday", "Monday", "Tuesday", "Wednesday", "Thursday", "Friday", "Saturday"].getD i "undefined")

/-- Formatting of one availability slot inside `checkDoctorAvailability`. -/
def formatSlot (slot : AvailabilitySlot) : String :=
  let location := match slot.locationBranch with
    | some b => " at " ++ b
    | none => ""
  dayName slot.dayOfWeek ++ ": " ++ slot.startTime ++ " - " ++ slot.endTime ++ location

/-- `checkDoctorAvailability(args)` (destructuring throws on a null
argument object, landing in the catch branch). -/
def checkDoctorAvailability (env : DbEnv) (args : Option FnArgs) : FnResult :=
  let catchResult : FnResult :=
    { success := false,
      message := "I\x27m having trouble checking availability. Let me transfer you to our appointments desk." }
  match args with
  | none => catchResult
  | some _ =>
    match env.availability with
    | .error _ => catchResult
    | .ok availability =>
      if availability.length = 0 then
        { success := false,
          message := "I couldn\x27t find availability information for this doctor. Let me connect you to appointments for assistance." }
      else
        { success := true,
          message := "Doctor\x27s availability:\n"
            ++ joinSep "\n" (availability.map formatSlot)
            ++ "\n\nWould you like me to help you book an appointment?" }

/-- The per-type lookup object built inside `emergencyProtocol`
(`cardiac`, `trauma`, and a `default` key holding the main number);
a miss or a falsy hit falls through to the `default` entry via `||`. -/
def emergencyLookup (ec : EmergencyContacts) (ty : Option String) : String :=
  let hit : Option String :=
    match ty with
    | some "cardiac" => some ec.cardiac
    | some "trauma" => some ec.trauma
    | some "default" => some ec.main
    | _ => none
  match hit with
  | some s => if s = "" then ec.main else s
  | none => ec.main

/-- `emergencyProtocol(args)`: resolves the transfer number by
emergency type and flags the `TRANSFER_EMERGENCY` action; the catch
branch (reached when destructuring a null argument object throws)
still reports `success = true` with the main number. -/
def emergencyProtocol (ec : EmergencyContacts) (args : Option FnArgs) : FnResult :=
  match args with
  | none =>
    { success := true,
      emergency := some true,
      message := "Emergency situation detected. Connecting you to emergency services immediately.",
      action := some "TRANSFER_EMERGENCY",
      transferTo := some ec.main }
  | some a =>
    let contactNumber := emergencyLookup ec a.emergencyType
    { success := true,
      emergency := some true,
      emergencyType := a.emergencyType,
      contactNumber := some contactNumber,
      message := "This is an emergency situation. I\x27m immediately connecting you to our emergency department. Please stay on the line.",
      action := some "TRANSFER_EMERGENCY",
      transferTo := some contactNumber }

/-- `transferToOperator(args)`: flags the `TRANSFER_OPERATOR` action
with the requested department (defaulting to "General"); its catch
branch also reports `success = true` and omits the department. -/
def transferToOperator (args : Option FnArgs) : FnResult :=
  match args with
  | none =>
    { success := true,
      action := some "TRANSFER_OPERATOR",
      message := "Let me transfer you to our operator. Please hold." }
  | some a =>
    let deptShown := match a.department with
      | some d => if d = "" then "our operator" else d
      | none => "our operator"
    let deptField := match a.department with
      | some d => if d = "" then "General" else d
      | none => "General"
    { success := true,
      action := some "TRANSFER_OPERATOR",
      department := some deptField,
      reason := a.reason,
      message := "I understand. Let me transfer you to " ++ deptShown
        ++ " who can better assist you. Please hold." }

/-- Case-insensitive substring match used by `searchHospitalInformation`
over the hospital-info rows. -/
def infoMatches (query : String) (item : InfoItem) : Bool :=
  jsIncludes (jsToLower item.title) (jsToLower query)
    || jsIncludes (jsToLower item.content) (jsToLower query)

/-- The locally accumulated `response` string of
`searchHospitalInformation`: the matching info rows joined, then the
related-departments suffix when any department matched. -/
def searchInfoResponse (query : String) (results : SearchResults)
    (info : List InfoItem) : String :=
  let matchingInfo := info.filter (infoMatches query)
  let part1 := if matchingInfo.length > 0 then
      joinSep "\n\n" (matchingInfo.map (fun item => item.title ++ ": " ++ item.content))
    else ""
  if results.departments.length > 0 then
    part1 ++ "\n\nRelated departments: "
      ++ joinSep ", " (results.departments.map (fun d => d.name))
  else part1

/-- `searchHospitalInformation(args)`: a missing `query` makes
`query.toLowerCase()` throw into the catch branch; otherwise combines
a data search with a case-insensitive scan of hospital-info rows. -/
def searchHospitalInformation (env : DbEnv) (args : Option FnArgs) : FnResult :=
  let catchResult : FnResult :=
    { success := false,
      message := "I\x27m having trouble searching that information. Let me connect you to our information desk." }
  match args with
  | none => catchResult
  | some a =>
    match a.query with
    | none => catchResult
    | some query =>
      match env.searchResults, env.hospitalInfo with
      | .error _, _ => catchResult
      | .ok _, .error _ => catchResult
      | .ok results, .ok info =>
        let matchingInfo := info.filter (infoMatches query)
        if matchingInfo.length = 0 && results.doctors.length = 0
            && results.departments.length = 0 then
          { success := false,
            message := "I couldn\x27t find specific information about that. Would you like me to connect you to our information desk?" }
        else
          { success := true,
            message := if searchInfoResponse query results info = ""
              then "I found some related information. How can I help you further?"
              else searchInfoResponse query results info }

/-- The dispatch table of `handleFunctionCall` in
src/services/functionHandlers.js: eight declared names; an unknown
name yields the generic fallback, and the router\x27s own catch wraps
the awaited handler (all handlers catch internally, so the embedded
handlers are total and the router simply returns their result). -/
def handleFunctionCall (ec : EmergencyContacts) (env : DbEnv)
    (functionName : String) (args : Option FnArgs) : FnResult :=
  if functionName = "search_doctors" then searchDoctors env args
  else if functionName = "get_departments" then getDepartmentsList env args
  else if functionName = "get_hospital_locations" then getHospitalLocationsList env args
  else if functionName = "get_contact_details" then getContactInfo env args
  else if functionName = "check_doctor_availability" then checkDoctorAvailability env args
  else if functionName = "emergency_protocol" then emergencyProtocol ec args
  else if functionName = "transfer_to_operator" then transferToOperator args
  else if functionName = "search_hospital_info" then searchHospitalInformation env args
  else
    { success := false,
      message := "I\x27m not sure how to handle that request. Let me connect you to our operator." }

/-- The eight declared function names of the dispatch table. -/
def declaredFunctionNames : List String :=
  ["search_doctors", "get_departments", "get_hospital_locations",
   "get_contact_details", "check_doctor_availability", "emergency_protocol",
   "transfer_to_operator", "search_hospital_info"]

-- ============================================
-- Realtime session bridge (src/services/realtimeHandler.js)
-- ============================================

/-- WebSocket `readyState` values. -/
inductive ReadyState where
  | connecting
  | open
  | closing
  | closed
  deriving DecidableEq

/-- The mutable per-call fields of `RealtimeSessionHandler`. The two
socket handles are reduced to their `readyState` (`none` models a
null handle); `audioBuffer` is the constructor-initialized buffer that
no code path ever appends to. -/
structure BridgeState where
  callSid : Option String
  phoneNumber : Option String
  openaiWs : Option ReadyState
  exotelWs : Option ReadyState
  conversationSet : Bool
  streamSid : Option String
  isConnected : Bool
  audioBuffer : List String
  audioSent : Bool
  audioReceived : Bool
  audioSentToExotel : Bool
  deriving DecidableEq

/-- Events the bridge sends on the model-side socket
(`sendToOpenAI` payloads, modelled structurally rather than as JSON
text): the session configuration, the synthetic greeting item, the
audio-append event `(type input_audio_buffer.append, audio)`, the
function-call output item, and the `response.create` request. -/
inductive OpenAIOut where
  | sessionUpdate
  | greetingItem
  | inputAudioAppend (audio : String)
  | functionCallOutput (callId : Option String) (output : FnResult)
  | responseCreate
  deriving DecidableEq

/-- Messages the bridge sends on the telephony-side socket: the
addressed media message `(event media, streamSid, media.payload)`. -/
inductive ExotelOut where
  | media (streamSid : String) (payload : String)
  deriving DecidableEq

/-- Mutations of the shared Conversation Record performed by the
bridge, collected as a trace. -/
inductive ConvAction where
  | addMessage (role : String) (content : String)
  | logFunctionCall (name : String)
  | logEmergency (emergencyType : Option String)
  | logTransfer (department : Option String) (reason : Option String)
  | endRequest (identifier : Option String) (status : String)
  deriving DecidableEq

/-- Presence of the transfer configuration (provider credentials and
the public base URL) read from the environment. -/
structure TransferConfig where
  hasCredentials : Bool
  hasPublicUrl : Bool
  deriving DecidableEq

/-- A call-redirect request issued to the telephony control API
(the HTTP round trip itself is an external collaborator; the model
records the attempt and its resolved destination). -/
inductive TransferAttempt where
  | emergency (transferTo : Option String) (emergencyType : Option String)
  | operatorCall (department : Option String) (resolvedNumber : String)
  deriving DecidableEq

/-- `sendToOpenAI(message)`: the single guard in front of every
model-socket send — emit only when the handle exists and its
`readyState` is OPEN; otherwise do nothing at all. -/
def sendToOpenAI (st : BridgeState) (msg : OpenAIOut) :
    BridgeState × List OpenAIOut :=
  if st.openaiWs = some ReadyState.open then (st, [msg]) else (st, [])

/-- `sendSessionUpdate()`: the session-configuration send. -/
def sendSessionUpdate (st : BridgeState) : BridgeState × List OpenAIOut :=
  sendToOpenAI st OpenAIOut.sessionUpdate

/-- `sendInitialGreeting()`: the synthetic greeting item followed by a
`response.create`. -/
def sendInitialGreeting (st : BridgeState) : BridgeState × List OpenAIOut :=
  let r1 := sendToOpenAI st OpenAIOut.greetingItem
  let r2 := sendToOpenAI r1.1 OpenAIOut.responseCreate
  (r2.1, r1.2 ++ r2.2)

/-- `sendAudioToOpenAI(audioPayload)`: drop with a warning when not
connected or the payload is empty, else wrap the payload in an
`input_audio_buffer.append` event and go through the send guard. -/
def sendAudioToOpenAI (st : BridgeState) (audioPayload : String) :
    BridgeState × List OpenAIOut :=
  if st.isConnected = false then (st, [])
  else if audioPayload = "" then (st, [])
  else sendToOpenAI st (OpenAIOut.inputAudioAppend audioPayload)

/-- `sendAudioToExotel(audioData)`: drop when the telephony socket is
not OPEN, when no `streamSid` has been recorded, or when the chunk is
empty; otherwise send the addressed media message and set the
first-send diagnostic flag. -/
def sendAudioToExotel (st : BridgeState) (audioData : String) :
    BridgeState × List ExotelOut :=
  if st.exotelWs ≠ some ReadyState.open then (st, [])
  else
    match st.streamSid with
    | none => (st, [])
    | some sid =>
      if audioData = "" then (st, [])
      else ({ st with audioSentToExotel := true }, [ExotelOut.media sid audioData])

/-- `getDepartmentContactNumber(department)`: directory lookup first,
then the keyword match over the emergency-contacts table, then the
main number; its catch returns the hardcoded main hospital number. -/
def getDepartmentContactNumber (ec : EmergencyContacts)
    (dbContacts : Except Unit (List Contact)) (department : Option String) :
    String :=
  match dbContacts with
  | .error _ => "+91-22-2640-0000"
  | .ok contacts =>
    match contacts with
    | c :: _ => c.phoneNumber
    | [] =>
      let deptLower := jsToLower (match department with
        | none => ""
        | some d => d)
      if jsIncludes deptLower "emergency" || jsIncludes deptLower "urgent" then
        ec.main
      else if jsIncludes deptLower "cardiac" || jsIncludes deptLower "heart" then
        ec.cardiac
      else if jsIncludes deptLower "trauma" || jsIncludes deptLower "accident" then
        ec.trauma
      else if jsIncludes deptLower "ambulance" then
        ec.ambulance
      else
        ec.main

/-- `executeEmergencyTransfer(transferNumber, emergencyType)`: bail out
when credentials or the public URL are missing, else issue the
redirect request. -/
def executeEmergencyTransfer (cfg : TransferConfig)
    (transferNumber : Option String) (emergencyType : Option String) :
    List TransferAttempt :=
  if cfg.hasCredentials = false then []
  else if cfg.hasPublicUrl = false then []
  else [TransferAttempt.emergency transferNumber emergencyType]

/-- `executeOperatorTransfer(department, reason)`: bail out on missing
configuration, resolve the department to a number, bail out if the
resolved number is falsy, else issue the redirect request. -/
def executeOperatorTransfer (cfg : TransferConfig) (ec : EmergencyContacts)
    (dbContacts : Except Unit (List Contact)) (department : Option String) :
    List TransferAttempt :=
  if cfg.hasCredentials = false then []
  else if cfg.hasPublicUrl = false then []
  else
    let transferNumber := getDepartmentContactNumber ec dbContacts department
    if transferNumber = "" then []
    else [TransferAttempt.operatorCall department transferNumber]

/-- The fields destructured from a
`response.function_call_arguments.done` event. -/
structure FnCallMsg where
  callId : Option String
  name : String
  argsString : Option String
  deriving DecidableEq

/-- `argsString || two-brace-default`: a missing or empty arguments
string is replaced by the empty JSON object text before parsing. -/
def effectiveArgsString (argsString : Option String) : String :=
  match argsString with
  | none => "\x7b\x7d"
  | some s => if s = "" then "\x7b\x7d" else s

/-- Observable outcome of one `handleFunctionCall(message)` run on the
bridge: resulting state, model-socket sends, whether (and with what)
Function Dispatch was invoked, transfer requests issued, and
Conversation Record mutations. -/
structure FnCallOutcome where
  state : BridgeState
  sent : List OpenAIOut
  dispatched : Option (String × Option FnArgs)
  transfers : List TransferAttempt
  convActions : List ConvAction
  deriving DecidableEq

/-- `RealtimeSessionHandler.handleFunctionCall(message)`: parse the
arguments string (`jsonParse` models `JSON.parse`; its `error` case is
the parser throwing on malformed text, and its `ok none` case is the
text `"null"`), dispatch, log, act on a declared transfer action, then
send the function output and a `response.create` through the send
guard. Any throw — in particular the parse failure — lands in the
surrounding catch, which only logs: the outcome is then empty and the
error does not propagate. -/
def handleFunctionCallEvent (ec : EmergencyContacts) (env : DbEnv)
    (cfg : TransferConfig) (dbContacts : Except Unit (List Contact))
    (jsonParse : String → Except Unit (Option FnArgs))
    (st : BridgeState) (msg : FnCallMsg) : FnCallOutcome :=
  match jsonParse (effectiveArgsString msg.argsString) with
  | .error _ =>
    { state := st, sent := [], dispatched := none, transfers := [], convActions := [] }
  | .ok args =>
    let result := handleFunctionCall ec env msg.name args
    let baseLog := [ConvAction.logFunctionCall msg.name]
    let acts :=
      if result.action = some "TRANSFER_EMERGENCY" then
        (baseLog ++ [ConvAction.logEmergency result.emergencyType],
         executeEmergencyTransfer cfg result.transferTo result.emergencyType)
      else if result.action = some "TRANSFER_OPERATOR" then
        (baseLog ++ [ConvAction.logTransfer result.department result.reason],
         executeOperatorTransfer cfg ec dbContacts result.department)
      else (baseLog, [])
    let r1 := sendToOpenAI st (OpenAIOut.functionCallOutput msg.callId result)
    let r2 := sendToOpenAI r1.1 OpenAIOut.responseCreate
    { state := r2.1, sent := r1.2 ++ r2.2, dispatched := some (msg.name, args),
      transfers := acts.2, convActions := acts.1 }

/-- Inbound model-socket events, by the `type` field of
`handleOpenAIMessage`; fields the handler reads are carried, all other
event kinds collapse into the logged-and-ignored constructors. -/
inductive OpenAIMsg where
  | sessionCreated
  | sessionUpdated
  | conversationItemCreated (isUserMessage : Bool) (transcript : Option String)
  | audioDelta (delta : Option String)
  | audioTranscriptDelta
  | audioTranscriptDone (transcript : Option String)
  | functionCallArgsDone (msg : FnCallMsg)
  | errorEvent
  | responseDone
  | unknownEvent
  deriving DecidableEq

/-- Full observable outcome of handling one inbound event. -/
structure StepOut where
  state : BridgeState
  toOpenai : List OpenAIOut
  toExotel : List ExotelOut
  transfers : List TransferAttempt
  convActions : List ConvAction
  deriving DecidableEq

/-- Outcome that performs nothing but a state change. -/
def StepOut.noop (st : BridgeState) : StepOut :=
  { state := st, toOpenai := [], toExotel := [], transfers := [], convActions := [] }

/-- `handleOpenAIMessage(message)`: the model-socket event switch. -/
def handleOpenAIMessage (ec : EmergencyContacts) (env : DbEnv)
    (cfg : TransferConfig) (dbContacts : Except Unit (List Contact))
    (jsonParse : String → Except Unit (Option FnArgs))
    (st : BridgeState) (msg : OpenAIMsg) : StepOut :=
  match msg with
  | .conversationItemCreated isUser transcript =>
    if isUser && jsTruthyStr transcript then
      { StepOut.noop st with
        convActions := [ConvAction.addMessage "user" (transcript.getD "")] }
    else StepOut.noop st
  | .audioDelta delta =>
    if jsTruthyStr delta then
      let st1 := { st with audioReceived := true }
      let r := sendAudioToExotel st1 (delta.getD "")
      { StepOut.noop r.1 with toExotel := r.2 }
    else StepOut.noop st
  | .audioTranscriptDone transcript =>
    if jsTruthyStr transcript then
      { StepOut.noop st with
        convActions := [ConvAction.addMessage "assistant" (transcript.getD "")] }
    else StepOut.noop st
  | .functionCallArgsDone m =>
    let out := handleFunctionCallEvent ec env cfg dbContacts jsonParse st m
    { state := out.state, toOpenai := out.sent, toExotel := [],
      transfers := out.transfers, convActions := out.convActions }
  | _ => StepOut.noop st

/-- Inbound telephony-socket events, by the `event` field of
`handleExotelMessage`. -/
inductive ExotelMsg where
  | start (streamSid : String) (customCallSid : Option String)
      (customPhoneNumber : Option String)
  | media (payload : Option String)
  | stop
  | unknownEvent
  deriving DecidableEq

/-- `handleExotelMessage(message)`: the telephony-socket event switch.
`start` records the media-stream identifier and backfills the call
identifier and phone number from the custom stream parameters;
`media` forwards the chunk only when connected and non-empty (never
queueing otherwise); `stop` requests the conversation end with status
`completed`. -/
def handleExotelMessage (st : BridgeState) (msg : ExotelMsg) : StepOut :=
  match msg with
  | .start sid customCallSid customPhone =>
    let st1 := { st with streamSid := some sid }
    let st2 := if st1.callSid = none && customCallSid.isSome
      then { st1 with callSid := customCallSid } else st1
    let st3 := if st2.phoneNumber = none && customPhone.isSome
      then { st2 with phoneNumber := customPhone } else st2
    StepOut.noop st3
  | .media payload =>
    if st.isConnected && jsTruthyStr payload then
      let st1 := { st with audioSent := true }
      let r := sendAudioToOpenAI st1 (payload.getD "")
      { StepOut.noop r.1 with toOpenai := r.2 }
    else StepOut.noop st
  | .stop =>
    { StepOut.noop st with
      convActions := [ConvAction.endRequest st.callSid "completed"] }
  | .unknownEvent => StepOut.noop st

/-- A sequence of model audio-output chunks processed in arrival
order, collecting every telephony-socket send. -/
def processModelAudio (ec : EmergencyContacts) (env : DbEnv)
    (cfg : TransferConfig) (dbContacts : Except Unit (List Contact))
    (jsonParse : String → Except Unit (Option FnArgs))
    (st : BridgeState) : List (Option String) → BridgeState × List ExotelOut
  | [] => (st, [])
  | d :: ds =>
    let out := handleOpenAIMessage ec env cfg dbContacts jsonParse st (OpenAIMsg.audioDelta d)
    let rest := processModelAudio ec env cfg dbContacts jsonParse out.state ds
    (rest.1, out.toExotel ++ rest.2)

-- ============================================
-- Conversation registry (src/services/conversationManager.js)
-- ============================================

/-- The registry-relevant part of a `Conversation`: its start time in
epoch milliseconds and whether the external store acknowledged
creation (`this.id` non-null) — `end(status)` persists the terminal
write only in that case. -/
structure ConvRecord where
  startTime : Int
  hasDbId : Bool
  deriving DecidableEq

/-- Registry plus the log of terminal writes persisted to the external
store: `endedWrites` records each `db.endConversation(id, status)`
call as a `(registry key, status)` pair. -/
structure RegState where
  registry : List (String × ConvRecord)
  endedWrites : List (String × String)
  deriving DecidableEq

/-- `activeConversations.get(identifier)` (an `undefined` identifier
looks up nothing). -/
def regLookup (reg : List (String × ConvRecord)) :
    Option String → Option ConvRecord
  | none => none
  | some k =>
    match reg.find? (fun kc => kc.1 = k) with
    | some kc => some kc.2
    | none => none

/-- `activeConversations.delete(identifier)`. -/
def regDelete (reg : List (String × ConvRecord)) :
    Option String → List (String × ConvRecord)
  | none => reg
  | some k => reg.filter (fun kc => kc.1 ≠ k)

/-- First phase of `endConversation(identifier, status)`: the registry
lookup, performed synchronously before the awaited
`conversation.end(status)`. -/
def endConvLookup (s : RegState) (identifier : Option String) : Option ConvRecord :=
  regLookup s.registry identifier

/-- Second phase of `endConversation(identifier, status)`: given the
conversation captured by the lookup, run `conversation.end(status)`
(persisting the terminal write when the record has a store id) and
delete the registry entry; when the lookup found nothing, warn and
return without mutating anything. -/
def endConvFinish (s : RegState) (identifier : Option String) (status : String) :
    Option ConvRecord → RegState
  | none => s
  | some c =>
    { registry := regDelete s.registry identifier,
      endedWrites :=
        if c.hasDbId then s.endedWrites ++ [(identifier.getD "", status)]
        else s.endedWrites }

/-- `endConversation(identifier, status)` run to completion without
interleaving: lookup then finish. -/
def endConversation (s : RegState) (identifier : Option String) (status : String) :
    RegState :=
  endConvFinish s identifier status (endConvLookup s identifier)

/-- The state a teardown acts on: the bridge\x27s model-side socket
handle, its conversation reference, its call identifier, and the
shared registry. -/
structure TeardownState where
  openaiWs : Option ReadyState
  conversationSet : Bool
  callSid : Option String
  reg : RegState
  deriving DecidableEq

/-- `ws.close()`: a present handle moves toward CLOSING/CLOSED; calling
it again on an already-closing handle changes nothing. -/
def wsClose : Option ReadyState → Option ReadyState
  | none => none
  | some _ => some ReadyState.closing

/-- `cleanup()` run to completion without interleaving: close the
model-side socket if present, then — when the conversation reference
is set — end the conversation with status `completed`. -/
def cleanup (td : TeardownState) : TeardownState :=
  let td1 := { td with openaiWs := wsClose td.openaiWs }
  if td1.conversationSet then
    { td1 with reg := endConversation td1.reg td1.callSid "completed" }
  else td1

/-- Two `cleanup()` invocations whose `endConversation` bodies overlap
at the awaited persistence step: both close callbacks perform the
registry lookup before either finishes `conversation.end`, which is
the interleaving the single-threaded event loop permits because
`conversation.end(status)` suspends on the external store write. -/
def cleanupInterleaved (td : TeardownState) : TeardownState :=
  let td1 := { td with openaiWs := wsClose td.openaiWs }
  if td1.conversationSet then
    let c1 := endConvLookup td1.reg td1.callSid
    let c2 := endConvLookup td1.reg td1.callSid
    let reg1 := endConvFinish td1.reg td1.callSid "completed" c1
    let reg2 := endConvFinish reg1 td1.callSid "completed" c2
    { td1 with reg := reg2 }
  else td1

/-- Number of persisted terminal writes recorded for one identifier. -/
def endedWriteCount (s : RegState) (k : String) : Nat :=
  (s.endedWrites.filter (fun w => w.1 = k)).length

/-- `cleanupStaleConversations()` core scan over the registry entries,
parameterized by the cutoff instant (`now` minus the threshold):
records strictly older than the cutoff are ended with status
`timeout` and removed; the count of removed records is returned. -/
def sweepScan (cutoff : Int) :
    List (String × ConvRecord) →
    List (String × ConvRecord) × List (String × String) × Nat
  | [] => ([], [], 0)
  | (k, c) :: rest =>
    let r := sweepScan cutoff rest
    if c.startTime < cutoff then (r.1, (k, "timeout") :: r.2.1, r.2.2 + 1)
    else ((k, c) :: r.1, r.2.1, r.2.2)

/-- The fixed staleness threshold: thirty minutes in milliseconds. -/
def staleThresholdMs : Int := 30 * 60 * 1000

/-- `cleanupStaleConversations()` at instant `now` (epoch ms): sweep
every record whose start time is before `now` minus the threshold,
returning the surviving registry, the `timeout` end events, and the
cleaned count. -/
def cleanupStaleConversations (now : Int) (reg : List (String × ConvRecord)) :
    List (String × ConvRecord) × List (String × String) × Nat :=
  sweepScan (now - staleThresholdMs) reg

-- ============================================
-- Concrete evaluation fixtures
-- ============================================

/-- A concrete emergency-contacts table (all entries non-empty). -/
def ecW : EmergencyContacts :=
  ⟨"+91-22-2640-1111", "+91-22-2640-2101", "+91-22-2640-3101", "+91-22-2640-4101"⟩

/-- A data-store oracle where every read succeeds with no rows. -/
def envEmpty : DbEnv :=
  ⟨Except.ok none, Except.ok [], Except.ok [], Except.ok [], Except.ok [],
   Except.ok [], Except.ok ⟨[], []⟩, Except.ok []⟩

/-- A data-store oracle where every read throws. -/
def envDown : DbEnv :=
  ⟨Except.error (), Except.error (), Except.error (), Except.error (),
   Except.error (), Except.error (), Except.error (), Except.error ()⟩

/-- A bridge state whose model-side socket handle is still null. -/
def stNoModel : BridgeState :=
  ⟨some "C1", some "+911234567890", none, some ReadyState.open, true,
   none, false, [], false, false, false⟩

/-- A bridge state with both sockets open and the stream identified. -/
def stActive : BridgeState :=
  ⟨some "C1", some "+911234567890", some ReadyState.open, some ReadyState.open,
   true, some "S1", true, [], false, false, false⟩

/-- A transfer configuration with credentials and the public URL set. -/
def cfgW : TransferConfig := ⟨true, true⟩

/-- A `JSON.parse` oracle accepting exactly the empty-object text. -/
def jsonParseW : String → Except Unit (Option FnArgs) :=
  fun s => if s = "\x7b\x7d" then Except.ok (some emptyArgs) else Except.error ()

/-- A teardown state with one registered, store-acknowledged record. -/
def tdW : TeardownState :=
  ⟨some ReadyState.open, true, some "C1", ⟨[("C1", ⟨0, true⟩)], []⟩⟩

-- ============================================
-- Shared helper lemmas
-- ============================================

theorem strAppend_ne_empty_left (s t : String) (h : s ≠ "") : s ++ t ≠ "" := by
  intro hc
  apply h
  have hd : s.data ++ t.data = ([] : List Char) := by
    have h2 := congrArg String.data hc
    simpa [String.data_append] using h2
  have h3 : s.data = [] := (List.append_eq_nil.mp hd).1
  cases s with
  | mk d => simp only at h3; simp [h3]

theorem strAppend_ne_empty_right (s t : String) (h : t ≠ "") : s ++ t ≠ "" := by
  intro hc
  apply h
  have hd : s.data ++ t.data = ([] : List Char) := by
    have h2 := congrArg String.data hc
    simpa [String.data_append] using h2
  have h3 : t.data = [] := (List.append_eq_nil.mp hd).2
  cases t with
  | mk d => simp only at h3; simp [h3]

theorem joinSep_cons_ne_empty (sep x : String) (xs : List String) (h : x ≠ "") :
    joinSep sep (x :: xs) ≠ "" := by
  cases xs with
  | nil => simpa [joinSep] using h
  | cons y ys =>
    show x ++ sep ++ joinSep sep (y :: ys) ≠ ""
    exact strAppend_ne_empty_left _ _ (strAppend_ne_empty_left _ _ h)

theorem joinSep_map_ne_empty {α : Type} (sep : String) (f : α → String)
    (l : List α) (hl : l ≠ []) (hf : ∀ a, f a ≠ "") :
    joinSep sep (l.map f) ≠ "" := by
  cases l with
  | nil => exact absurd rfl hl
  | cons a rest => exact joinSep_cons_ne_empty sep (f a) (rest.map f) (hf a)

theorem formatLocation_ne_empty (loc : HospitalLocation) : formatLocation loc ≠ "" := by
  unfold formatLocation
  exact strAppend_ne_empty_left _ _ (strAppend_ne_empty_left _ _
    (strAppend_ne_empty_left _ _ (strAppend_ne_empty_left _ _
      (strAppend_ne_empty_left _ _ (strAppend_ne_empty_left _ _
        (strAppend_ne_empty_right _ _ (by decide)))))))

theorem formatContact_ne_empty (c : Contact) : formatContact c ≠ "" := by
  unfold formatContact
  exact strAppend_ne_empty_left _ _ (strAppend_ne_empty_left _ _
    (strAppend_ne_empty_left _ _ (strAppend_ne_empty_right _ _ (by decide))))

theorem searchDoctors_message_ne_empty (env : DbEnv) (args : Option FnArgs) :
    (searchDoctors env args).message ≠ "" := by
  unfold searchDoctors
  cases args with
  | none => dsimp only; decide
  | some a =>
    dsimp only
    split
    · (try dsimp only); decide
    · (try dsimp only); decide
    · split
      · (try dsimp only); decide
      · (try dsimp only)
        exact strAppend_ne_empty_left _ _ (strAppend_ne_empty_right _ _ (by decide))

theorem getDepartmentsList_message_ne_empty (env : DbEnv) (args : Option FnArgs) :
    (getDepartmentsList env args).message ≠ "" := by
  unfold getDepartmentsList
  split
  · (try dsimp only); decide
  · split
    · (try dsimp only); decide
    · (try dsimp only)
      exact strAppend_ne_empty_left _ _ (strAppend_ne_empty_right _ _ (by decide))

theorem getHospitalLocationsList_message_ne_empty (env : DbEnv) (args : Option FnArgs) :
    (getHospitalLocationsList env args).message ≠ "" := by
  unfold getHospitalLocationsList
  dsimp only
  split
  · (try dsimp only); decide
  · rename_i locations _
    split
    · (try dsimp only); decide
    · rename_i hlen
      (try dsimp only)
      exact joinSep_map_ne_empty _ formatLocation locations
        (by intro hnil; simp [hnil] at hlen) formatLocation_ne_empty

theorem getContactInfo_message_ne_empty (env : DbEnv) (args : Option FnArgs) :
    (getContactInfo env args).message ≠ "" := by
  unfold getContactInfo
  split
  · (try dsimp only); decide
  · rename_i contacts _
    split
    · (try dsimp only); decide
    · rename_i hlen
      (try dsimp only)
      exact joinSep_map_ne_empty _ formatContact contacts
        (by intro hnil; simp [hnil] at hlen) formatContact_ne_empty

theorem checkDoctorAvailability_message_ne_empty (env : DbEnv) (args : Option FnArgs) :
    (checkDoctorAvailability env args).message ≠ "" := by
  unfold checkDoctorAvailability
  cases args with
  | none => dsimp only; decide
  | some a =>
    dsimp only
    split
    · (try dsimp only); decide
    · split
      · (try dsimp only); decide
      · (try dsimp only)
        exact strAppend_ne_empty_right _ _ (by decide)

theorem emergencyProtocol_message_ne_empty (ec : EmergencyContacts)
    (args : Option FnArgs) : (emergencyProtocol ec args).message ≠ "" := by
  unfold emergencyProtocol
  cases args with
  | none => dsimp only; decide
  | some a => dsimp only; decide

theorem transferToOperator_message_ne_empty (args : Option FnArgs) :
    (transferToOperator args).message ≠ "" := by
  unfold transferToOperator
  cases args with
  | none => dsimp only; decide
  | some a =>
    dsimp only
    exact strAppend_ne_empty_right _ _ (by decide)

theorem emergencyLookup_spec (ec : EmergencyContacts) (ty : Option String)
    (hmain : ec.main ≠ "") (hcardiac : ec.cardiac ≠ "") (htrauma : ec.trauma ≠ "") :
    (ty = some "cardiac" → emergencyLookup ec ty = ec.cardiac)
    ∧ (ty = some "trauma" → emergencyLookup ec ty = ec.trauma)
    ∧ (ty ≠ some "cardiac" → ty ≠ some "trauma" → emergencyLookup ec ty = ec.main)
    ∧ emergencyLookup ec ty ≠ "" := by
  rcases ty with _ | t
  · refine ⟨?_, ?_, ?_, ?_⟩
    · intro h; cases h
    · intro h; cases h
    · intro _ _; simp [emergencyLookup]
    · simp [emergencyLookup, hmain]
  · by_cases h1 : t = "cardiac"
    · subst h1
      refine ⟨?_, ?_, ?_, ?_⟩
      · intro _; simp [emergencyLookup, hcardiac]
      · intro h; simp at h
      · intro hc _; exact absurd rfl hc
      · simp [emergencyLookup, hcardiac]
    · by_cases h2 : t = "trauma"
      · subst h2
        refine ⟨?_, ?_, ?_, ?_⟩
        · intro h; simp at h
        · intro _; simp [emergencyLookup, htrauma]
        · intro _ ht; exact absurd rfl ht
        · simp [emergencyLookup, htrauma]
      · by_cases h3 : t = "default"
        · subst h3
          refine ⟨?_, ?_, ?_, ?_⟩
          · intro h; simp at h
          · intro h; simp at h
          · intro _ _; simp [emergencyLookup]
          · simp [emergencyLookup, hmain]
        · refine ⟨?_, ?_, ?_, ?_⟩
          · intro h; rw [Option.some_inj] at h; exact absurd h h1
          · intro h; rw [Option.some_inj] at h; exact absurd h h2
          · intro _ _; simp [emergencyLookup, h1, h2, h3]
          · simp [emergencyLookup, h1, h2, h3, hmain]

theorem searchHospitalInformation_message_ne_empty (env : DbEnv)
    (args : Option FnArgs) : (searchHospitalInformation env args).message ≠ "" := by
  unfold searchHospitalInformation
  cases args with
  | none => dsimp only; decide
  | some a =>
    dsimp only
    split
    · (try dsimp only); decide
    · split
      · (try dsimp only); decide
      · (try dsimp only); decide
      · split
        · (try dsimp only); decide
        · (try dsimp only)
          split
          · decide
          · rename_i hresp
            exact hresp

-- ============================================
-- Claim theorems
-- ============================================

/-- C6: for every input to Function Dispatch — each of the eight
declared function names with arbitrary arguments and any unknown
name — the returned object carries a non-empty `message`, and an
unknown name yields `success = false` with the generic fallback
message; the embedded dispatcher is a total function, so it never
raises. -/
theorem dispatch_always_returns_message (ec : EmergencyContacts) (env : DbEnv)
    (name : String) (args : Option FnArgs) :
    (handleFunctionCall ec env name args).message ≠ ""
    ∧ (name ∉ declaredFunctionNames →
        (handleFunctionCall ec env name args).success = false
        ∧ (handleFunctionCall ec env name args).message =
          "I\x27m not sure how to handle that request. Let me connect you to our operator.") := by
  constructor
  · unfold handleFunctionCall
    repeat' split
    all_goals first
      | exact searchDoctors_message_ne_empty env args
      | exact getDepartmentsList_message_ne_empty env args
      | exact getHospitalLocationsList_message_ne_empty env args
      | exact getContactInfo_message_ne_empty env args
      | exact checkDoctorAvailability_message_ne_empty env args
      | exact emergencyProtocol_message_ne_empty ec args
      | exact transferToOperator_message_ne_empty args
      | exact searchHospitalInformation_message_ne_empty env args
      | (dsimp only; decide)
  · intro hname
    simp only [declaredFunctionNames, List.mem_cons, List.not_mem_nil, or_false] at hname
    push_neg at hname
    obtain ⟨h1, h2, h3, h4, h5, h6, h7, h8⟩ := hname
    unfold handleFunctionCall
    rw [if_neg h1, if_neg h2, if_neg h3, if_neg h4, if_neg h5, if_neg h6,
      if_neg h7, if_neg h8]
    exact ⟨rfl, rfl⟩

/-- C6 witness: a concrete unknown name still yields a non-empty
message and `success = false`. -/
theorem dispatch_always_returns_message_witness :
    (handleFunctionCall ecW envEmpty "book_flight" (some emptyArgs)).message ≠ ""
    ∧ (handleFunctionCall ecW envEmpty "book_flight" (some emptyArgs)).success = false := by
  have h := dispatch_always_returns_message ecW envEmpty "book_flight" (some emptyArgs)
  exact ⟨h.1, (h.2 (by decide)).1⟩

/-- C5 counterexample: on the error branch (a null argument object
makes the destructuring throw into the catch), the emergency and
operator-transfer handlers return `success = true`, not
`success = false` as the claim states. -/
theorem handler_error_branch_counterexample :
    (emergencyProtocol ecW none).success = true
    ∧ (transferToOperator none).success = true := by decide

/-- C5 amended: on their error branches all handlers return a
non-empty user-facing message; the six data-access handlers return
`success = false`, while the emergency and operator-transfer handlers
return `success = true`. (`envDown` is the oracle on which every
data-store read throws, so each data handler takes its error branch;
the null argument object drives the other two into their catch.) -/
theorem handler_error_branch_messages (ec : EmergencyContacts) (args : Option FnArgs) :
    ((searchDoctors envDown args).success = false
      ∧ (searchDoctors envDown args).message ≠ "")
    ∧ ((getDepartmentsList envDown args).success = false
      ∧ (getDepartmentsList envDown args).message ≠ "")
    ∧ ((getHospitalLocationsList envDown args).success = false
      ∧ (getHospitalLocationsList envDown args).message ≠ "")
    ∧ ((getContactInfo envDown args).success = false
      ∧ (getContactInfo envDown args).message ≠ "")
    ∧ ((checkDoctorAvailability envDown args).success = false
      ∧ (checkDoctorAvailability envDown args).message ≠ "")
    ∧ ((searchHospitalInformation envDown args).success = false
      ∧ (searchHospitalInformation envDown args).message ≠ "")
    ∧ ((emergencyProtocol ec none).success = true
      ∧ (emergencyProtocol ec none).message ≠ "")
    ∧ ((transferToOperator none).success = true
      ∧ (transferToOperator none).message ≠ "") := by
  refine ⟨⟨?_, searchDoctors_message_ne_empty envDown args⟩,
    ⟨?_, getDepartmentsList_message_ne_empty envDown args⟩,
    ⟨?_, getHospitalLocationsList_message_ne_empty envDown args⟩,
    ⟨?_, getContactInfo_message_ne_empty envDown args⟩,
    ⟨?_, checkDoctorAvailability_message_ne_empty envDown args⟩,
    ⟨?_, searchHospitalInformation_message_ne_empty envDown args⟩,
    ⟨?_, emergencyProtocol_message_ne_empty ec none⟩,
    ⟨?_, transferToOperator_message_ne_empty none⟩⟩
  · cases args with
    | none => decide
    | some a =>
      cases hb : jsTruthyStr a.locationBranch
        <;> simp [searchDoctors, envDown, hb]
  · simp [getDepartmentsList, envDown]
  · cases args with
    | none => decide
    | some a =>
      cases hb : jsTruthyStr a.branch
        <;> simp [getHospitalLocationsList, envDown, hb]
  · simp [getContactInfo, envDown]
  · cases args with
    | none => decide
    | some a => simp [checkDoctorAvailability, envDown]
  · cases args with
    | none => decide
    | some a =>
      cases hq : a.query
        <;> simp [searchHospitalInformation, envDown, hq]
  · simp [emergencyProtocol]
  · simp [transferToOperator]

/-- C7: with the configured `EMERGENCY_CONTACTS` table, every
emergency-protocol result carries `action = TRANSFER_EMERGENCY` and a
non-empty `transferTo` number: `cardiac`/`trauma` are resolved by the
lookup table, any other emergency type (and the internal-error
branch) falls back to the main emergency number. -/
theorem emergencyProtocol_transfer_number (args : Option FnArgs) :
    (emergencyProtocol EMERGENCY_CONTACTS args).action = some "TRANSFER_EMERGENCY"
    ∧ (∃ n, (emergencyProtocol EMERGENCY_CONTACTS args).transferTo = some n ∧ n ≠ "")
    ∧ (args = none →
        (emergencyProtocol EMERGENCY_CONTACTS args).transferTo
          = some EMERGENCY_CONTACTS.main)
    ∧ (∀ a, args = some a →
        (a.emergencyType = some "cardiac" →
          (emergencyProtocol EMERGENCY_CONTACTS args).transferTo
            = some EMERGENCY_CONTACTS.cardiac)
        ∧ (a.emergencyType = some "trauma" →
          (emergencyProtocol EMERGENCY_CONTACTS args).transferTo
            = some EMERGENCY_CONTACTS.trauma)
        ∧ (a.emergencyType ≠ some "cardiac" → a.emergencyType ≠ some "trauma" →
          (emergencyProtocol EMERGENCY_CONTACTS args).transferTo
            = some EMERGENCY_CONTACTS.main)) := by
  have hspec := fun ty => emergencyLookup_spec EMERGENCY_CONTACTS ty
    (by decide) (by decide) (by decide)
  cases args with
  | none =>
    refine ⟨rfl, ⟨EMERGENCY_CONTACTS.main, rfl, by decide⟩, fun _ => rfl, ?_⟩
    intro a h; cases h
  | some a =>
    refine ⟨rfl, ⟨emergencyLookup EMERGENCY_CONTACTS a.emergencyType, rfl,
      (hspec a.emergencyType).2.2.2⟩, ?_, ?_⟩
    · intro h; cases h
    · intro b hb
      rw [Option.some_inj] at hb
      subst hb
      refine ⟨?_, ?_, ?_⟩
      · intro h
        show some (emergencyLookup EMERGENCY_CONTACTS a.emergencyType)
          = some EMERGENCY_CONTACTS.cardiac
        rw [(hspec a.emergencyType).1 h]
      · intro h
        show some (emergencyLookup EMERGENCY_CONTACTS a.emergencyType)
          = some EMERGENCY_CONTACTS.trauma
        rw [(hspec a.emergencyType).2.1 h]
      · intro hc ht
        show some (emergencyLookup EMERGENCY_CONTACTS a.emergencyType)
          = some EMERGENCY_CONTACTS.main
        rw [(hspec a.emergencyType).2.2.1 hc ht]

/-- C7 witness: an emergency type missing from the lookup table falls
back to the configured main number, which is non-empty. -/
theorem emergencyProtocol_transfer_number_witness :
    (emergencyProtocol EMERGENCY_CONTACTS
        (some { emptyArgs with emergencyType := some "snakebite" })).action
      = some "TRANSFER_EMERGENCY"
    ∧ (emergencyProtocol EMERGENCY_CONTACTS
        (some { emptyArgs with emergencyType := some "snakebite" })).transferTo
      = some EMERGENCY_CONTACTS.main := by
  have h := emergencyProtocol_transfer_number
    (some { emptyArgs with emergencyType := some "snakebite" })
  exact ⟨h.1, ((h.2.2.2 _ rfl).2.2 (by decide) (by decide))⟩

/-- C8: operator-transfer department resolution checks the directory
first, then the emergency-keyword table in source order
(emergency/urgent, cardiac/heart, trauma/accident, ambulance), then
the configured main number, and — the configured numbers being the
concrete `EMERGENCY_CONTACTS` values, given directory rows carrying
non-empty phone numbers — never returns an empty string; a thrown
directory read resolves to the hardcoded main hospital number. -/
theorem department_resolution_fallback
    (dbc : Except Unit (List Contact)) (dept : Option String)
    (hrows : ∀ l, dbc = Except.ok l → ∀ c ∈ l, c.phoneNumber ≠ "") :
    getDepartmentContactNumber EMERGENCY_CONTACTS dbc dept ≠ ""
    ∧ (∀ c cs, dbc = Except.ok (c :: cs) →
        getDepartmentContactNumber EMERGENCY_CONTACTS dbc dept = c.phoneNumber)
    ∧ (dbc = Except.ok [] →
        (jsIncludes (jsToLower (dept.getD "")) "emergency"
          || jsIncludes (jsToLower (dept.getD "")) "urgent") = true →
        getDepartmentContactNumber EMERGENCY_CONTACTS dbc dept = EMERGENCY_CONTACTS.main)
    ∧ (dbc = Except.ok [] →
        (jsIncludes (jsToLower (dept.getD "")) "emergency"
          || jsIncludes (jsToLower (dept.getD "")) "urgent") = false →
        (jsIncludes (jsToLower (dept.getD "")) "cardiac"
          || jsIncludes (jsToLower (dept.getD "")) "heart") = true →
        getDepartmentContactNumber EMERGENCY_CONTACTS dbc dept = EMERGENCY_CONTACTS.cardiac)
    ∧ (dbc = Except.ok [] →
        (jsIncludes (jsToLower (dept.getD "")) "emergency"
          || jsIncludes (jsToLower (dept.getD "")) "urgent") = false →
        (jsIncludes (jsToLower (dept.getD "")) "cardiac"
          || jsIncludes (jsToLower (dept.getD "")) "heart") = false →
        (jsIncludes (jsToLower (dept.getD "")) "trauma"
          || jsIncludes (jsToLower (dept.getD "")) "accident") = true →
        getDepartmentContactNumber EMERGENCY_CONTACTS dbc dept = EMERGENCY_CONTACTS.trauma)
    ∧ (dbc = Except.ok [] →
        (jsIncludes (jsToLower (dept.getD "")) "emergency"
          || jsIncludes (jsToLower (dept.getD "")) "urgent") = false →
        (jsIncludes (jsToLower (dept.getD "")) "cardiac"
          || jsIncludes (jsToLower (dept.getD "")) "heart") = false →
        (jsIncludes (jsToLower (dept.getD "")) "trauma"
          || jsIncludes (jsToLower (dept.getD "")) "accident") = false →
        jsIncludes (jsToLower (dept.getD "")) "ambulance" = true →
        getDepartmentContactNumber EMERGENCY_CONTACTS dbc dept = EMERGENCY_CONTACTS.ambulance)
    ∧ (dbc = Except.ok [] →
        (jsIncludes (jsToLower (dept.getD "")) "emergency"
          || jsIncludes (jsToLower (dept.getD "")) "urgent") = false →
        (jsIncludes (jsToLower (dept.getD "")) "cardiac"
          || jsIncludes (jsToLower (dept.getD "")) "heart") = false →
        (jsIncludes (jsToLower (dept.getD "")) "trauma"
          || jsIncludes (jsToLower (dept.getD "")) "accident") = false →
        jsIncludes (jsToLower (dept.getD "")) "ambulance" = false →
        getDepartmentContactNumber EMERGENCY_CONTACTS dbc dept = EMERGENCY_CONTACTS.main)
    ∧ (∀ e, dbc = Except.error e →
        getDepartmentContactNumber EMERGENCY_CONTACTS dbc dept = "+91-22-2640-0000") := by
  cases dept with
  | none =>
    cases dbc with
    | error e =>
      refine ⟨?_, ?_, ?_, ?_, ?_, ?_, ?_, ?_⟩
      · show ("+91-22-2640-0000" : String) ≠ ""
        decide
      · intro c cs h; cases h
      · intro h; cases h
      · intro h; cases h
      · intro h; cases h
      · intro h; cases h
      · intro h; cases h
      · intro e2 h; rfl
    | ok l =>
      cases l with
      | nil =>
        refine ⟨?_, ?_, ?_, ?_, ?_, ?_, ?_, ?_⟩
        · unfold getDepartmentContactNumber
          dsimp only
          repeat' split
          all_goals decide
        · intro c cs h; cases h
        · intro _ h1
          simp only [Option.getD] at h1
          unfold getDepartmentContactNumber
          dsimp only
          rw [if_pos h1]
        · intro _ h1 h2
          simp only [Option.getD] at h1 h2
          unfold getDepartmentContactNumber
          dsimp only
          rw [if_neg (by rw [h1]; decide), if_pos h2]
        · intro _ h1 h2 h3
          simp only [Option.getD] at h1 h2 h3
          unfold getDepartmentContactNumber
          dsimp only
          rw [if_neg (by rw [h1]; decide), if_neg (by rw [h2]; decide), if_pos h3]
        · intro _ h1 h2 h3 h4
          simp only [Option.getD] at h1 h2 h3 h4
          unfold getDepartmentContactNumber
          dsimp only
          rw [if_neg (by rw [h1]; decide), if_neg (by rw [h2]; decide),
            if_neg (by rw [h3]; decide), if_pos h4]
        · intro _ h1 h2 h3 h4
          simp only [Option.getD] at h1 h2 h3 h4
          unfold getDepartmentContactNumber
          dsimp only
          rw [if_neg (by rw [h1]; decide), if_neg (by rw [h2]; decide),
            if_neg (by rw [h3]; decide), if_neg (by rw [h4]; decide)]
        · intro e h; cases h
      | cons c cs =>
        refine ⟨?_, ?_, ?_, ?_, ?_, ?_, ?_, ?_⟩
        · show c.phoneNumber ≠ ""
          exact hrows (c :: cs) rfl c (List.mem_cons_self c cs)
        · intro c2 cs2 h
          rw [Except.ok.injEq, List.cons.injEq] at h
          rw [h.1]
          rfl
        · intro h; cases h
        · intro h; cases h
        · intro h; cases h
        · intro h; cases h
        · intro h; cases h
        · intro e2 h; cases h
  | some d =>
    cases dbc with
    | error e =>
      refine ⟨?_, ?_, ?_, ?_, ?_, ?_, ?_, ?_⟩
      · show ("+91-22-2640-0000" : String) ≠ ""
        decide
      · intro c cs h; cases h
      · intro h; cases h
      · intro h; cases h
      · intro h; cases h
      · intro h; cases h
      · intro h; cases h
      · intro e2 h; rfl
    | ok l =>
      cases l with
      | nil =>
        refine ⟨?_, ?_, ?_, ?_, ?_, ?_, ?_, ?_⟩
        · unfold getDepartmentContactNumber
          dsimp only
          repeat' split
          all_goals decide
        · intro c cs h; cases h
        · intro _ h1
          simp only [Option.getD] at h1
          unfold getDepartmentContactNumber
          dsimp only
          rw [if_pos h1]
        · intro _ h1 h2
          simp only [Option.getD] at h1 h2
          unfold getDepartmentContactNumber
          dsimp only
          rw [if_neg (by rw [h1]; decide), if_pos h2]
        · intro _ h1 h2 h3
          simp only [Option.getD] at h1 h2 h3
          unfold getDepartmentContactNumber
          dsimp only
          rw [if_neg (by rw [h1]; decide), if_neg (by rw [h2]; decide), if_pos h3]
        · intro _ h1 h2 h3 h4
          simp only [Option.getD] at h1 h2 h3 h4
          unfold getDepartmentContactNumber
          dsimp only
          rw [if_neg (by rw [h1]; decide), if_neg (by rw [h2]; decide),
            if_neg (by rw [h3]; decide), if_pos h4]
        · intro _ h1 h2 h3 h4
          simp only [Option.getD] at h1 h2 h3 h4
          unfold getDepartmentContactNumber
          dsimp only
          rw [if_neg (by rw [h1]; decide), if_neg (by rw [h2]; decide),
            if_neg (by rw [h3]; decide), if_neg (by rw [h4]; decide)]
        · intro e h; cases h
      | cons c cs =>
        refine ⟨?_, ?_, ?_, ?_, ?_, ?_, ?_, ?_⟩
        · show c.phoneNumber ≠ ""
          exact hrows (c :: cs) rfl c (List.mem_cons_self c cs)
        · intro c2 cs2 h
          rw [Except.ok.injEq, List.cons.injEq] at h
          rw [h.1]
          rfl
        · intro h; cases h
        · intro h; cases h
        · intro h; cases h
        · intro h; cases h
        · intro h; cases h
        · intro e2 h; cases h

/-- C8 witness: an unmatched department on an empty directory resolves
to the (non-empty) main number. -/
theorem department_resolution_fallback_witness :
    getDepartmentContactNumber EMERGENCY_CONTACTS (Except.ok []) (some "Billing") ≠ ""
    ∧ getDepartmentContactNumber EMERGENCY_CONTACTS (Except.ok []) (some "Billing")
      = EMERGENCY_CONTACTS.main := by
  have h := department_resolution_fallback (Except.ok []) (some "Billing")
    (by intro l hl c hc; rw [Except.ok.injEq] at hl; rw [← hl] at hc; cases hc)
  exact ⟨h.1, h.2.2.2.2.2.2.1 rfl (by decide) (by decide) (by decide) (by decide)⟩

/-- C9: the staleness sweep force-ends with status `timeout` and
removes exactly the records whose start time is strictly older than
the thirty-minute threshold, returns the removed count, and on the
spec scenario sweeps a 31-minute-old record while leaving a
10-minute-old record untouched. -/
theorem staleness_sweep_exact (now : Int) (reg : List (String × ConvRecord)) :
    (cleanupStaleConversations now reg).1
      = reg.filter (fun kc => !decide (kc.2.startTime < now - staleThresholdMs))
    ∧ (cleanupStaleConversations now reg).2.1
      = (reg.filter (fun kc => decide (kc.2.startTime < now - staleThresholdMs))).map
          (fun kc => (kc.1, "timeout"))
    ∧ (cleanupStaleConversations now reg).2.2
      = (reg.filter (fun kc => decide (kc.2.startTime < now - staleThresholdMs))).length
    ∧ cleanupStaleConversations (31 * 60 * 1000) [("C31", ⟨0, true⟩)]
      = ([], [("C31", "timeout")], 1)
    ∧ cleanupStaleConversations (10 * 60 * 1000) [("C10", ⟨0, true⟩)]
      = ([("C10", ⟨0, true⟩)], [], 0) := by
  have key : ∀ (cutoff : Int) (l : List (String × ConvRecord)),
      (sweepScan cutoff l).1 = l.filter (fun kc => !decide (kc.2.startTime < cutoff))
      ∧ (sweepScan cutoff l).2.1
        = (l.filter (fun kc => decide (kc.2.startTime < cutoff))).map
            (fun kc => (kc.1, "timeout"))
      ∧ (sweepScan cutoff l).2.2
        = (l.filter (fun kc => decide (kc.2.startTime < cutoff))).length := by
    intro cutoff l
    induction l with
    | nil => exact ⟨rfl, rfl, rfl⟩
    | cons kc rest ih =>
      obtain ⟨k, c⟩ := kc
      obtain ⟨ih1, ih2, ih3⟩ := ih
      by_cases h : c.startTime < cutoff
      · simp [sweepScan, List.filter_cons, h, ih1, ih2, ih3]
      · simp [sweepScan, List.filter_cons, h, ih1, ih2, ih3]
  exact ⟨(key _ reg).1, (key _ reg).2.1, (key _ reg).2.2, by decide, by decide⟩

/-- C3: an inbound `media` chunk is forwarded verbatim to the model
socket as an `input_audio_buffer.append` event exactly when the
bridge is connected, the payload is non-empty and the socket is OPEN;
in every case the constructor-initialized audio buffer is left
untouched (nothing is ever queued), and a disconnected bridge, an
empty/missing payload, or a non-open socket yields no model-side
send. -/
theorem media_forward_or_drop (st : BridgeState) :
    (∀ p, st.isConnected = true → st.openaiWs = some ReadyState.open → p ≠ "" →
      handleExotelMessage st (ExotelMsg.media (some p)) =
        { state := { st with audioSent := true },
          toOpenai := [OpenAIOut.inputAudioAppend p],
          toExotel := [], transfers := [], convActions := [] })
    ∧ (∀ q, (handleExotelMessage st (ExotelMsg.media q)).state.audioBuffer
        = st.audioBuffer)
    ∧ (∀ q, st.isConnected = false ∨ q = none ∨ q = some ""
          ∨ st.openaiWs ≠ some ReadyState.open →
        (handleExotelMessage st (ExotelMsg.media q)).toOpenai = []) := by
  refine ⟨?_, ?_, ?_⟩
  · intro p h1 h2 h3
    simp [handleExotelMessage, sendAudioToOpenAI, sendToOpenAI, StepOut.noop,
      jsTruthyStr, h1, h2, h3]
  · intro q
    unfold handleExotelMessage
    dsimp only
    split
    · unfold sendAudioToOpenAI sendToOpenAI
      repeat' split
      all_goals simp [StepOut.noop]
    · simp [StepOut.noop]
  · intro q hq
    unfold handleExotelMessage
    dsimp only
    split
    · rename_i hcond
      rw [Bool.and_eq_true] at hcond
      rcases hq with h | h | h | h
      · rw [hcond.1] at h; cases h
      · subst h; simp [jsTruthyStr] at hcond
      · subst h; simp [jsTruthyStr] at hcond
      · unfold sendAudioToOpenAI sendToOpenAI
        repeat' split
        all_goals simp [StepOut.noop, sendToOpenAI, h]
    · simp [StepOut.noop]

/-- C3 witness: with both sockets open and the stream identified, a
concrete chunk is forwarded as the append event, and with a null model
socket handle nothing is sent. -/
theorem media_forward_or_drop_witness :
    handleExotelMessage stActive (ExotelMsg.media (some "AAAA")) =
      { state := { stActive with audioSent := true },
        toOpenai := [OpenAIOut.inputAudioAppend "AAAA"],
        toExotel := [], transfers := [], convActions := [] }
    ∧ (handleExotelMessage stNoModel (ExotelMsg.media (some "AAAA"))).toOpenai = [] := by
  refine ⟨(media_forward_or_drop stActive).1 "AAAA" rfl rfl (by decide), ?_⟩
  exact (media_forward_or_drop stNoModel).2.2 (some "AAAA")
    (Or.inr (Or.inr (Or.inr (by decide))))

theorem audioDelta_no_send_without_streamSid (ec : EmergencyContacts) (env : DbEnv)
    (cfg : TransferConfig) (dbc : Except Unit (List Contact))
    (jsonParse : String → Except Unit (Option FnArgs))
    (st : BridgeState) (d : Option String) (h : st.streamSid = none) :
    (handleOpenAIMessage ec env cfg dbc jsonParse st (OpenAIMsg.audioDelta d)).toExotel = []
    ∧ (handleOpenAIMessage ec env cfg dbc jsonParse st
        (OpenAIMsg.audioDelta d)).state.streamSid = none := by
  unfold handleOpenAIMessage
  cases hd : jsTruthyStr d
  · simp [hd, StepOut.noop, h]
  · simp only [hd, if_true]
    unfold sendAudioToExotel
    split
    · simp [StepOut.noop, h]
    · simp [StepOut.noop, h]

/-- C4: for every sequence of model audio-output chunks processed
while no media-stream identifier has been recorded, the bridge sends
no addressed audio message to the telephony socket. -/
theorem no_orphaned_audio_sends (ec : EmergencyContacts) (env : DbEnv)
    (cfg : TransferConfig) (dbc : Except Unit (List Contact))
    (jsonParse : String → Except Unit (Option FnArgs))
    (st : BridgeState) (ds : List (Option String)) (h : st.streamSid = none) :
    (processModelAudio ec env cfg dbc jsonParse st ds).2 = [] := by
  induction ds generalizing st with
  | nil => rfl
  | cons d rest ih =>
    have hstep := audioDelta_no_send_without_streamSid ec env cfg dbc jsonParse st d h
    show (handleOpenAIMessage ec env cfg dbc jsonParse st (OpenAIMsg.audioDelta d)).toExotel
        ++ (processModelAudio ec env cfg dbc jsonParse
            (handleOpenAIMessage ec env cfg dbc jsonParse st
              (OpenAIMsg.audioDelta d)).state rest).2 = []
    rw [hstep.1, ih _ hstep.2]
    rfl

/-- C4 witness: three concrete audio deltas processed before any
`start` event produce no telephony-side sends. -/
theorem no_orphaned_audio_sends_witness :
    (processModelAudio ecW envEmpty cfgW (Except.ok []) jsonParseW stNoModel
      [some "QUJD", none, some "RUZH"]).2 = [] :=
  no_orphaned_audio_sends ecW envEmpty cfgW (Except.ok []) jsonParseW stNoModel
    [some "QUJD", none, some "RUZH"] rfl

/-- C10: `sendToOpenAI` is the single guard in front of every
model-socket send: when the handle is null or not OPEN it is a silent
no-op — no throw, no buffering, no state change — so the
session-configuration, synthetic-greeting, audio-append,
function-result and response-request sends are all discarded. -/
theorem model_socket_send_guard (st : BridgeState)
    (h : st.openaiWs ≠ some ReadyState.open) :
    (∀ m, sendToOpenAI st m = (st, []))
    ∧ sendSessionUpdate st = (st, [])
    ∧ sendInitialGreeting st = (st, [])
    ∧ (∀ p, sendAudioToOpenAI st p = (st, []))
    ∧ (∀ ec env cfg dbc jsonParse msg,
        (handleFunctionCallEvent ec env cfg dbc jsonParse st msg).sent = []
        ∧ (handleFunctionCallEvent ec env cfg dbc jsonParse st msg).state = st) := by
  have hsend : ∀ m, sendToOpenAI st m = (st, []) := by
    intro m
    unfold sendToOpenAI
    rw [if_neg h]
  refine ⟨hsend, ?_, ?_, ?_, ?_⟩
  · unfold sendSessionUpdate
    exact hsend _
  · unfold sendInitialGreeting
    simp [hsend]
  · intro p
    unfold sendAudioToOpenAI
    repeat' split
    all_goals first | rfl | exact hsend _
  · intro ec env cfg dbc jsonParse msg
    unfold handleFunctionCallEvent
    cases hp : jsonParse (effectiveArgsString msg.argsString) with
    | error e => simp [hp]
    | ok args => simp [hp, hsend]

/-- C10 witness: with a null model-side socket handle, the
configuration, greeting and audio sends are all silent no-ops. -/
theorem model_socket_send_guard_witness :
    sendSessionUpdate stNoModel = (stNoModel, [])
    ∧ sendInitialGreeting stNoModel = (stNoModel, [])
    ∧ sendAudioToOpenAI stNoModel "QUJD" = (stNoModel, []) := by
  have h := model_socket_send_guard stNoModel (by decide)
  exact ⟨h.2.1, h.2.2.1, h.2.2.2.1 "QUJD"⟩

/-- C2 counterexample: with a malformed arguments string (here a lone
open brace, which `JSON.parse` rejects), the bridge catches the parse
error, Function Dispatch is NOT invoked (`dispatched = none`, not the
empty argument set the claim requires) and no function-result or
response request is emitted. -/
theorem malformed_args_counterexample :
    (handleFunctionCallEvent ecW envEmpty cfgW (Except.ok []) jsonParseW stActive
      ⟨some "call_1", "search_doctors", some "\x7b"⟩).dispatched = none
    ∧ (handleFunctionCallEvent ecW envEmpty cfgW (Except.ok []) jsonParseW stActive
      ⟨some "call_1", "search_doctors", some "\x7b"⟩).sent = [] := by decide

/-- C2 amended: when the arguments string fails to parse, the
surrounding catch absorbs the error — the handler returns the empty
outcome (no dispatch, no sends, no logs, state unchanged) instead of
crashing; dispatch with the parsed arguments happens exactly on parse
success, and only an absent or empty arguments string is defaulted to
the empty JSON object text before parsing. -/
theorem malformed_args_fail_safe (ec : EmergencyContacts) (env : DbEnv)
    (cfg : TransferConfig) (dbc : Except Unit (List Contact))
    (jsonParse : String → Except Unit (Option FnArgs))
    (st : BridgeState) (msg : FnCallMsg) :
    (jsonParse (effectiveArgsString msg.argsString) = Except.error () →
      handleFunctionCallEvent ec env cfg dbc jsonParse st msg =
        { state := st, sent := [], dispatched := none, transfers := [],
          convActions := [] })
    ∧ (∀ args, jsonParse (effectiveArgsString msg.argsString) = Except.ok args →
        (handleFunctionCallEvent ec env cfg dbc jsonParse st msg).dispatched
          = some (msg.name, args))
    ∧ (∀ s, s = none ∨ s = some "" → effectiveArgsString s = "\x7b\x7d") := by
  refine ⟨?_, ?_, ?_⟩
  · intro hp
    unfold handleFunctionCallEvent
    rw [hp]
  · intro args hp
    unfold handleFunctionCallEvent
    rw [hp]
  · rintro s (rfl | rfl) <;> rfl

/-- C2 witness: a concrete unparsable arguments string yields the
empty outcome through the catch. -/
theorem malformed_args_fail_safe_witness :
    handleFunctionCallEvent ecW envEmpty cfgW (Except.ok []) jsonParseW stActive
      ⟨some "call_2", "transfer_to_operator", some "not json"⟩ =
      { state := stActive, sent := [], dispatched := none, transfers := [],
        convActions := [] } :=
  (malformed_args_fail_safe ecW envEmpty cfgW (Except.ok []) jsonParseW stActive
    ⟨some "call_2", "transfer_to_operator", some "not json"⟩).1 rfl

theorem find_filter_ne (k : String) (reg : List (String × ConvRecord)) :
    (reg.filter (fun kc => kc.1 ≠ k)).find? (fun kc => kc.1 = k) = none := by
  induction reg with
  | nil => rfl
  | cons kc rest ih =>
    by_cases h : kc.1 = k
    · simp [List.filter_cons, h]
    · simp [List.filter_cons, List.find?, h]

theorem regLookup_delete (reg : List (String × ConvRecord)) (k : String) :
    regLookup (regDelete reg (some k)) (some k) = none := by
  unfold regLookup regDelete
  dsimp only
  rw [find_filter_ne]

theorem endConversation_not_found (s : RegState) (id : Option String)
    (status : String) (h : endConvLookup s id = none) :
    endConversation s id status = s := by
  unfold endConversation
  rw [h]
  rfl

theorem endConversation_idem (s : RegState) (id : Option String) (status : String) :
    endConversation (endConversation s id status) id status
      = endConversation s id status := by
  cases id with
  | none => rfl
  | some k =>
    cases h : endConvLookup s (some k) with
    | none =>
      rw [endConversation_not_found s (some k) status h]
      rw [endConversation_not_found s (some k) status h]
    | some c =>
      apply endConversation_not_found
      unfold endConversation
      rw [h]
      unfold endConvFinish endConvLookup
      dsimp only
      exact regLookup_delete s.registry k

theorem wsClose_idem (w : Option ReadyState) : wsClose (wsClose w) = wsClose w := by
  cases w <;> rfl

/-- C1 counterexample: two close signals in rapid succession whose
`endConversation` bodies overlap at the awaited persistence step (the
event loop runs the second close callback while the first
`conversation.end` is suspended on the external store write) both
find the record still registered and both persist an "ended" write —
two terminal writes for one call, not exactly one; there is no
single-use guard flag in `cleanup()`. -/
theorem teardown_interleaved_counterexample :
    endedWriteCount (cleanupInterleaved tdW).reg "C1" = 2
    ∧ ¬ endedWriteCount (cleanupInterleaved tdW).reg "C1" = 1 := by decide

/-- C1 amended: teardown invocations that do not overlap are
effectively once — `cleanup` is idempotent as a whole (a second
sequential run changes nothing), and a registered, store-acknowledged
record receives exactly one persisted "completed" write and is removed
from the registry; the guard is the registry deletion performed by
`endConversation`, not a single-use flag. -/
theorem teardown_sequentially_idempotent (td : TeardownState) :
    cleanup (cleanup td) = cleanup td
    ∧ (∀ k c, td.callSid = some k →
        endConvLookup td.reg (some k) = some c → c.hasDbId = true →
        td.conversationSet = true →
        (cleanup td).reg.endedWrites = td.reg.endedWrites ++ [(k, "completed")]
        ∧ regLookup (cleanup td).reg.registry (some k) = none) := by
  constructor
  · unfold cleanup
    dsimp only
    cases hc : td.conversationSet
    · simp [hc, wsClose_idem]
    · simp [hc, wsClose_idem, endConversation_idem]
  · intro k c hk hlook hdb hcset
    unfold cleanup
    dsimp only
    rw [if_pos hcset]
    dsimp only
    rw [hk]
    unfold endConversation
    rw [hlook]
    unfold endConvFinish
    dsimp only [Option.getD]
    rw [if_pos hdb]
    exact ⟨rfl, regLookup_delete td.reg.registry k⟩

/-- C1 witness: on a concrete teardown state with one registered
record, a second sequential `cleanup` is a no-op and exactly one
"completed" write is persisted. -/
theorem teardown_sequentially_idempotent_witness :
    cleanup (cleanup tdW) = cleanup tdW
    ∧ (cleanup tdW).reg.endedWrites = [("C1", "completed")] := by
  have h := teardown_sequentially_idempotent tdW
  refine ⟨h.1, ?_⟩
  have h2 := (h.2 "C1" ⟨0, true⟩ rfl rfl rfl rfl).1
  rw [h2]
  decide
